import Mathlib

/-!
Shallow embedding of the client in `src/App.jsx` (image classification
single-page client).  The React component `App` holds four pieces of
state (`image`, `result`, `loading`, `message`); we additionally record
the pending `setTimeout` expiry timers (absolute fire times, in
milliseconds) and the DOM value of the file input, both of which the
source mutates.  Event handlers become pure state-transition functions;
the asynchronous `fetch` outcome is an explicit parameter.
-/

/-- Severity of a notification: the `type` passed to `showMessage`. -/
inductive Severity
| info
| success
| error
deriving DecidableEq, Repr

/-- Model of the `message` state object `\x7b type, text \x7d` set by `showMessage`. -/
structure Notification where
  type : Severity
  text : String
deriving DecidableEq, Repr

/-- One prediction entry of the service response: the source reads
`item.class` and `item.confidence` (JSON numbers are modelled as rationals). -/
structure Prediction where
  cls : String
  confidence : ℚ
deriving DecidableEq, Repr

/-- Possible JSON value found under `results.predictions`: either an array of
prediction entries, or any non-array JSON value, of which the embedding keeps
only its JS truthiness (needed by the `|| []` fallback on line 103). -/
inductive PredsVal
| arr (ps : List Prediction)
| other (truthy : Bool)
deriving DecidableEq, Repr

/-- JS truthiness of a `results.predictions` value: every array is truthy
(including the empty array); a non-array value carries its own truthiness. -/
def predsTruthy : PredsVal → Bool
| .arr _ => true
| .other b => b

/-- Model of the `results` object of a parsed response body; `predictions`
is `none` when the key is absent (JS `undefined`). -/
structure ResultsObj where
  predictions : Option PredsVal
deriving DecidableEq, Repr

/-- Parsed response body `data` (result of `await res.json()`): the source
reads `data.error` (line 96) and `data.results?.predictions` (line 103).
`error := some ""` models a present but empty-string `error` field. -/
structure ResponseData where
  error : Option String
  results : Option ResultsObj
deriving DecidableEq, Repr

/-- The optional chain `data.results?.predictions`: `undefined` (`none`)
when `results` is absent or has no `predictions` key. -/
def optPredictions (d : ResponseData) : Option PredsVal :=
  d.results.bind fun r => r.predictions

/-- JS `v || dflt` on an optional string `v`: `undefined` and the empty
string are falsy, every other string is itself returned. -/
def jsOr (o : Option String) (dflt : String) : String :=
  match o with
  | none => dflt
  | some s => if s = "" then dflt else s

/-- JS `v || []` on the optional-chain value `data.results?.predictions`:
`undefined` and falsy non-arrays give the empty array; any truthy value
(in particular any array, and any truthy non-array) is kept as is. -/
def jsOrEmptyList (o : Option PredsVal) : PredsVal :=
  match o with
  | none => .arr []
  | some v => if predsTruthy v then v else .arr []

/-- Outcome of the awaited network interaction inside the `try` block:
either some awaited step threw (the `fetch` rejected, or `res.json()`
rejected), landing in the `catch`, or a response was obtained and parsed,
with its `res.ok` flag and parsed body. -/
inductive FetchOutcome
| throws
| replies (ok : Bool) (data : ResponseData)
deriving DecidableEq, Repr

/-- A user-selected file as the handler sees it: `file.size` in bytes
(the only field the validation reads), its MIME type and its byte content
(what `readAsDataURL` encodes).  The embedding keeps `size` as its own
field because the source never relates `file.size` to the content. -/
structure File where
  mime : String
  size : ℕ
  content : List ℕ
deriving DecidableEq, Repr

/-- Component state of `App` plus the two pieces of ambient state the
handlers mutate: pending auto-expiry timers (absolute fire times in ms of
each `setTimeout(() => setMessage(null), 5000)`) and the file-input DOM
value (`e.target.value`). -/
structure AppState where
  image : Option String
  result : Option PredsVal
  loading : Bool
  message : Option Notification
  timers : List ℕ
  fileInputValue : String
deriving DecidableEq, Repr

/-- Source lines 50-53: `showMessage(type, text)` sets the message and
schedules a 5000 ms timeout that will clear it.  The returned timer id is
discarded by the source: no pending timer is cancelled, the new fire time
is appended to the pending ones. -/
def showMessage (now : ℕ) (type : Severity) (text : String) (s : AppState) : AppState :=
  { s with message := some ⟨type, text⟩, timers := s.timers ++ [now + 5000] }

/-- Running of one pending timeout callback `() => setMessage(null)` at its
fire time `t`: the message is cleared unconditionally (the callback closes
over nothing), and the timer is no longer pending. -/
def fireTimer (t : ℕ) (s : AppState) : AppState :=
  { s with message := none, timers := s.timers.erase t }

/-- Alphabet of standard base64. -/
def base64Chars : List Char :=
  "ABCDEFGHIJKLMNOPQRSTUVWXYZabcdefghijklmnopqrstuvwxyz0123456789+/".toList

/-- Character of a 6-bit group. -/
def b64Char (n : ℕ) : Char := base64Chars.getD (n % 64) 'A'

/-- Standard base64 of a byte sequence, with padding. -/
def encodeBase64 : List ℕ → String
| [] => ""
| [a] => String.mk [b64Char (a / 4), b64Char (a % 4 * 16), '=', '=']
| [a, b] => String.mk [b64Char (a / 4), b64Char (a % 4 * 16 + b / 16), b64Char (b % 16 * 4), '=']
| a :: b :: c :: rest =>
  String.mk [b64Char (a / 4), b64Char (a % 4 * 16 + b / 16),
    b64Char (b % 16 * 4 + c / 64), b64Char (c % 64)] ++ encodeBase64 rest

/-- Result of `FileReader.readAsDataURL` on a successful read: a
self-describing data URI retaining the MIME type of the file. -/
def dataURL (f : File) : String :=
  "data:" ++ f.mime ++ ";base64," ++ encodeBase64 f.content

/-- MIME filter of the file input element (`accept="image/*"`, line 140):
the type starts with the characters of `image/`. -/
def acceptsMime (m : String) : Bool := decide (m.toList.take 6 = "image/".toList)

/-- Source lines 55-70, `handleFileChange`, as a state transition.
`eFile` is `e.target.files?.[0]` (`none` when the picker was cancelled);
`now` is the current time in ms, consumed by `showMessage`.  In the
validation-failure branch the source shows the error message, clears the
input DOM value and clears `image`, leaving `result` untouched.  Otherwise
it starts an asynchronous `readAsDataURL` whose `onloadend` stores the data
URI into `image`, and synchronously clears `result`; the embedding gives
the state after a successful read has completed. -/
def handleFileChange (eFile : Option File) (now : ℕ) (s : AppState) : AppState :=
  match eFile with
  | none => s
  | some file =>
    if file.size > 10 * 1024 * 1024 then
      let s1 := showMessage now .error "File size exceeds the 10MB limit." s
      { s1 with fileInputValue := "", image := none }
    else
      { s with image := some (dataURL file), result := none }

/-- Primitive state-mutating steps performed by `handleClassify`, in
source order: the three `useState` setters, the outgoing `fetch` (with the
request payload `image` it carries), and the `setTimeout` scheduled inside
`showMessage` (recorded by its absolute fire time).  The `console.error`
diagnostics of lines 98 and 106 are output-only and not modelled. -/
inductive Effect
| setLoading (b : Bool)
| setResult (r : Option PredsVal)
| setMessage (m : Option Notification)
| fetchRequest (imageData : String)
| setTimeout (fireAt : ℕ)
deriving DecidableEq, Repr

/-- Effect sequence of one `showMessage(type, text)` call (lines 50-53). -/
def showMessageE (now : ℕ) (type : Severity) (text : String) : List Effect :=
  [.setMessage (some ⟨type, text⟩), .setTimeout (now + 5000)]

/-- Effect trace of one `handleClassify()` invocation (lines 72-111), given
the `image` state it closes over and the outcome of the awaited network
interaction.  With no image it only shows the info message and returns.
Otherwise: `setLoading(true)`, `setResult(null)`, `setMessage(null)`, the
`fetch`; then the branch taken inside the `try` (the `catch` for a thrown
await, the early-return error branch for `!res.ok`, or the success path),
and in every case the `finally` block `setLoading(false)` last. -/
def handleClassifyEffects (image : Option String) (outcome : FetchOutcome) (now : ℕ) :
    List Effect :=
  match image with
  | none => showMessageE now .info "Please upload an image first."
  | some img =>
    [.setLoading true, .setResult none, .setMessage none, .fetchRequest img] ++
    (match outcome with
     | .throws => showMessageE now .error "Failed to connect to the backend server."
     | .replies ok data =>
       if ok then
         .setResult (some (jsOrEmptyList (optPredictions data))) ::
           showMessageE now .success "Image classified successfully!"
       else
         showMessageE now .error
           (jsOr data.error "An unknown classification error occurred.")) ++
    [.setLoading false]

/-- Interpretation of one primitive effect on the state. -/
def applyEffect (s : AppState) : Effect → AppState
| .setLoading b => { s with loading := b }
| .setResult r => { s with result := r }
| .setMessage m => { s with message := m }
| .fetchRequest _ => s
| .setTimeout t => { s with timers := s.timers ++ [t] }

/-- Interpretation of an effect trace, in order. -/
def applyEffects (s : AppState) (es : List Effect) : AppState :=
  es.foldl applyEffect s

/-- State transition of one `handleClassify()` invocation: its effect
trace applied to the state. -/
def handleClassify (outcome : FetchOutcome) (now : ℕ) (s : AppState) : AppState :=
  applyEffects s (handleClassifyEffects s.image outcome now)

/-- Notifications raised by a trace: the `setMessage` effects carrying a
message (as opposed to the clearing `setMessage(null)`). -/
def raised (es : List Effect) : List Notification :=
  es.filterMap fun e =>
    match e with
    | .setMessage (some n) => some n
    | _ => none

/-- Test of a trace effect being the network request. -/
def isFetch : Effect → Bool
| .fetchRequest _ => true
| _ => false

/-- Two-digit decimal rendering of a remainder below 100. -/
def pad2 (n : ℕ) : String :=
  if n < 10 then "0" ++ toString n else toString n

/-- JS `x.toFixed(2)`: the decimal string with exactly two fraction
digits of the integer `n` minimizing the distance of `n / 100` to `x`,
ties toward the larger `n` — that is `n = ⌊100 x + 1/2⌋`, computed here
directly on the numerator and denominator of `x`: for `x = a / b` with
`b > 0` one has `⌊100 x + 1/2⌋ = ⌊(200 a + b) / (2 b)⌋`, a floor
division of integers. -/
def toFixed2 (x : ℚ) : String :=
  let n : ℤ := Int.fdiv (200 * x.num + (x.den : ℤ)) (2 * (x.den : ℤ))
  (if n < 0 then "-" else "") ++ toString (n.natAbs / 100) ++ "." ++ pad2 (n.natAbs % 100)

/-- Rendering of one prediction entry (lines 116-123): the label shown
after `Label:` is `item.class`, and the confidence text after
`Confidence:` is `(item.confidence * 100).toFixed(2)` followed by `%`. -/
def fmtPrediction (p : Prediction) : String × String :=
  (p.cls, toFixed2 (p.confidence * 100) ++ "%")

/-- Shape of the output of `formatResults`: either the literal
no-data placeholder string, or one rendered line per entry. -/
inductive RenderOut
| noData
| entries (ls : List (String × String))
deriving DecidableEq, Repr

/-- Source lines 113-125, `formatResults(res)`: a falsy `res` (here `null`
or a falsy non-array) or a truthy non-array gives the literal
`"No data returned."` placeholder; an array maps each entry in order to
its rendered line. -/
def formatResults (res : Option PredsVal) : RenderOut :=
  match res with
  | none => .noData
  | some (.other _) => .noData
  | some (.arr ps) => .entries (ps.map fmtPrediction)

/-- Number of `setLoading(false)` steps in a trace. -/
def countSetLoadingFalse : List Effect → ℕ
| [] => 0
| .setLoading false :: es => countSetLoadingFalse es + 1
| _ :: es => countSetLoadingFalse es

/-- Initial component state: `useState(null)` for image, result and message,
`useState(false)` for loading, no pending timers, empty file input. -/
def initialState : AppState := ⟨none, none, false, none, [], ""⟩

/-- Concrete data URI standing for an uploaded image in closed instances. -/
def demoImage : String := "data:image/png;base64,AAAA"

/-- Concrete state in which a payload is present. -/
def sWithImage : AppState := { initialState with image := some demoImage }

/-- C10: when the file-selection event carries no file (the picker was
cancelled), `handleFileChange` returns at once and the whole session state
— image payload, classification result, notification, loading flag,
pending timers and file-input value — is exactly as before the call. -/
theorem C10_cancelled_picker_noop (now : ℕ) (s : AppState) :
    handleFileChange none now s = s := rfl

/-- C1 counterexample: the claim says a second `show` cancels the pending
expiry timer of the first notification; in the code the timer id returned
by `setTimeout` is discarded, so after a show at 0 ms and a second show at
3000 ms both timers (fire times 5000 and 8000) are pending, and the
earlier one, started for the first notification, expires the second
notification at 5000 ms, before its own 8000 ms timer. -/
theorem C1_counterexample :
    (showMessage 3000 .info "new" (showMessage 0 .error "old" initialState)).timers
      = [5000, 8000] ∧
    (fireTimer 5000
        (showMessage 3000 .info "new" (showMessage 0 .error "old" initialState))).message
      = none ∧
    (5000 : ℕ) < 8000 := by decide

/-- C1 (amended): `showMessage` replaces any displayed notification with
the new one and starts a fresh 5-second timer, but it does not cancel the
pending timer of the previous notification — every previously pending fire
time stays pending — and any pending timer that fires clears whichever
notification is visible at that moment, so a newly shown notification can
be expired by a timer started for an earlier one. -/
theorem C1_show_replaces_without_cancel (s : AppState) (now : ℕ)
    (sev : Severity) (text : String) :
    (showMessage now sev text s).message = some ⟨sev, text⟩ ∧
    (showMessage now sev text s).timers = s.timers ++ [now + 5000] ∧
    ∀ t, (fireTimer t (showMessage now sev text s)).message = none :=
  ⟨rfl, rfl, fun _ => rfl⟩

/-- C4: for every file larger than 10 MiB, `handleFileChange` raises an
error notification reading `File size exceeds the 10MB limit.`, clears the
image payload and the file-input value, and leaves the classification
result unchanged. -/
theorem C4_oversized_file_rejected (file : File) (now : ℕ) (s : AppState)
    (h : file.size > 10 * 1024 * 1024) :
    (handleFileChange (some file) now s).message
      = some ⟨.error, "File size exceeds the 10MB limit."⟩ ∧
    (handleFileChange (some file) now s).image = none ∧
    (handleFileChange (some file) now s).fileInputValue = "" ∧
    (handleFileChange (some file) now s).result = s.result := by
  simp [handleFileChange, h, showMessage]

/-- C4 witness: a concrete file one byte over the limit. -/
theorem C4_witness :
    (⟨"image/png", 10485761, []⟩ : File).size > 10 * 1024 * 1024 ∧
    ((handleFileChange (some ⟨"image/png", 10485761, []⟩) 0 initialState).message
      = some ⟨.error, "File size exceeds the 10MB limit."⟩ ∧
    (handleFileChange (some ⟨"image/png", 10485761, []⟩) 0 initialState).image = none ∧
    (handleFileChange (some ⟨"image/png", 10485761, []⟩) 0 initialState).fileInputValue = "" ∧
    (handleFileChange (some ⟨"image/png", 10485761, []⟩) 0 initialState).result
      = initialState.result) :=
  ⟨by decide, C4_oversized_file_rejected ⟨"image/png", 10485761, []⟩ 0 initialState (by decide)⟩

/-- C5: for every file within the 10 MiB limit and of an accepted image
type, once the asynchronous read completes the image payload is present —
a base64 data URI retaining the MIME type of the file — and any previously
held classification result is cleared. -/
theorem C5_valid_file_encoded (file : File) (now : ℕ) (s : AppState)
    (hsize : file.size ≤ 10 * 1024 * 1024) (_hmime : acceptsMime file.mime = true) :
    (handleFileChange (some file) now s).image = some (dataURL file) ∧
    (handleFileChange (some file) now s).image ≠ none ∧
    dataURL file = "data:" ++ file.mime ++ ";base64," ++ encodeBase64 file.content ∧
    (handleFileChange (some file) now s).result = none := by
  have hc : ¬ (file.size > 10 * 1024 * 1024) := by omega
  simp [handleFileChange, hc, dataURL]

/-- C5 witness: a concrete three-byte PNG-typed file. -/
theorem C5_witness :
    (⟨"image/png", 3, [1, 2, 3]⟩ : File).size ≤ 10 * 1024 * 1024 ∧
    acceptsMime "image/png" = true ∧
    ((handleFileChange (some ⟨"image/png", 3, [1, 2, 3]⟩) 0 sWithImage).image
      = some (dataURL ⟨"image/png", 3, [1, 2, 3]⟩) ∧
    (handleFileChange (some ⟨"image/png", 3, [1, 2, 3]⟩) 0 sWithImage).image ≠ none ∧
    dataURL ⟨"image/png", 3, [1, 2, 3]⟩
      = "data:" ++ "image/png" ++ ";base64," ++ encodeBase64 [1, 2, 3] ∧
    (handleFileChange (some ⟨"image/png", 3, [1, 2, 3]⟩) 0 sWithImage).result = none) :=
  ⟨by decide, by decide,
    C5_valid_file_encoded ⟨"image/png", 3, [1, 2, 3]⟩ 0 sWithImage (by decide) (by decide)⟩

/-- C2: for every invocation of `handleClassify` with a present payload,
whichever terminal branch is taken — success, service-reported error
(`!res.ok`), or a thrown transport failure — the trace performs
`setLoading(false)` exactly once (the `finally` block), and the final
state has the busy flag cleared, re-enabling submission. -/
theorem C2_busy_cleared_exactly_once (outcome : FetchOutcome) (now : ℕ)
    (s : AppState) (v : String) (h : s.image = some v) :
    countSetLoadingFalse (handleClassifyEffects s.image outcome now) = 1 ∧
    (handleClassify outcome now s).loading = false := by
  rw [handleClassify, h]
  rcases outcome with _ | ⟨ok, data⟩
  · simp [handleClassifyEffects, showMessageE, countSetLoadingFalse,
      applyEffects, applyEffect]
  · cases ok <;>
      simp [handleClassifyEffects, showMessageE, countSetLoadingFalse,
        applyEffects, applyEffect]

/-- C2 witness: concrete invocation with a present payload and a thrown
transport failure. -/
theorem C2_witness :
    sWithImage.image = some demoImage ∧
    (countSetLoadingFalse (handleClassifyEffects sWithImage.image .throws 0) = 1 ∧
    (handleClassify .throws 0 sWithImage).loading = false) :=
  ⟨by decide, C2_busy_cleared_exactly_once .throws 0 sWithImage demoImage (by decide)⟩

/-- C3 counterexample: the claim says the displayed text equals the
`error` field of the body whenever that field is present; for the response
body whose `error` field is present but the empty string, the JS fallback
`data.error || ...` discards it (the empty string is falsy) and the
displayed text is the generic fallback, not the field value. -/
theorem C3_counterexample :
    (handleClassify (.replies false ⟨some "", none⟩) 0 sWithImage).message
      = some ⟨.error, "An unknown classification error occurred."⟩ ∧
    (⟨some "", none⟩ : ResponseData).error = some "" ∧
    ("An unknown classification error occurred." : String) ≠ "" := by decide

/-- C3 (amended): for every non-success response, exactly one error
notification is raised, with text the JS fallback `data.error || ...`:
the `error` field when present and non-empty, and the fixed string
`An unknown classification error occurred.` when the field is absent or
empty; the busy flag ends cleared and the result stays absent. -/
theorem C3_error_response_notification (now : ℕ) (s : AppState)
    (d : ResponseData) (v : String) (h : s.image = some v) :
    (handleClassify (.replies false d) now s).message
      = some ⟨.error, jsOr d.error "An unknown classification error occurred."⟩ ∧
    raised (handleClassifyEffects s.image (.replies false d) now)
      = [⟨.error, jsOr d.error "An unknown classification error occurred."⟩] ∧
    (handleClassify (.replies false d) now s).loading = false ∧
    (handleClassify (.replies false d) now s).result = none ∧
    (d.error = none →
      jsOr d.error "An unknown classification error occurred."
        = "An unknown classification error occurred.") ∧
    (∀ m, d.error = some m → m ≠ "" →
      jsOr d.error "An unknown classification error occurred." = m) ∧
    (d.error = some "" →
      jsOr d.error "An unknown classification error occurred."
        = "An unknown classification error occurred.") := by
  rw [handleClassify, h]
  refine ⟨?_, ?_, ?_, ?_, ?_, ?_, ?_⟩
  · simp [handleClassifyEffects, showMessageE, applyEffects, applyEffect]
  · simp [handleClassifyEffects, showMessageE, raised]
  · simp [handleClassifyEffects, showMessageE, applyEffects, applyEffect]
  · simp [handleClassifyEffects, showMessageE, applyEffects, applyEffect]
  · intro he; simp [jsOr, he]
  · intro m he hm; simp [jsOr, he, hm]
  · intro he; simp [jsOr, he]

/-- C3 witness: concrete non-success response carrying a non-empty
`error` field. -/
theorem C3_witness :
    sWithImage.image = some demoImage ∧
    ((handleClassify (.replies false ⟨some "boom", none⟩) 0 sWithImage).message
      = some ⟨.error, jsOr (some "boom") "An unknown classification error occurred."⟩ ∧
    raised (handleClassifyEffects sWithImage.image (.replies false ⟨some "boom", none⟩) 0)
      = [⟨.error, jsOr (some "boom") "An unknown classification error occurred."⟩] ∧
    (handleClassify (.replies false ⟨some "boom", none⟩) 0 sWithImage).loading = false ∧
    (handleClassify (.replies false ⟨some "boom", none⟩) 0 sWithImage).result = none ∧
    ((⟨some "boom", none⟩ : ResponseData).error = none →
      jsOr (⟨some "boom", none⟩ : ResponseData).error
          "An unknown classification error occurred."
        = "An unknown classification error occurred.") ∧
    (∀ m, (⟨some "boom", none⟩ : ResponseData).error = some m → m ≠ "" →
      jsOr (⟨some "boom", none⟩ : ResponseData).error
          "An unknown classification error occurred." = m) ∧
    ((⟨some "boom", none⟩ : ResponseData).error = some "" →
      jsOr (⟨some "boom", none⟩ : ResponseData).error
          "An unknown classification error occurred."
        = "An unknown classification error occurred.")) :=
  ⟨by decide,
    C3_error_response_notification 0 sWithImage ⟨some "boom", none⟩ demoImage (by decide)⟩

/-- C6: invoking `handleClassify` with an absent payload issues no network
request, raises exactly one notification — severity info with text
`Please upload an image first.` — and leaves the classification result
and the busy flag exactly as they were. -/
theorem C6_absent_payload_no_call (outcome : FetchOutcome) (now : ℕ)
    (s : AppState) (h : s.image = none) :
    (∀ b, Effect.fetchRequest b ∉ handleClassifyEffects s.image outcome now) ∧
    raised (handleClassifyEffects s.image outcome now)
      = [⟨.info, "Please upload an image first."⟩] ∧
    (handleClassify outcome now s).message
      = some ⟨.info, "Please upload an image first."⟩ ∧
    (handleClassify outcome now s).result = s.result ∧
    (handleClassify outcome now s).loading = s.loading := by
  rw [handleClassify, h]
  refine ⟨?_, ?_, ?_, ?_, ?_⟩ <;>
    simp [handleClassifyEffects, showMessageE, raised, applyEffects, applyEffect, h]

/-- C6 witness: concrete invocation on the initial state, which has no
payload. -/
theorem C6_witness :
    initialState.image = none ∧
    ((∀ b, Effect.fetchRequest b ∉ handleClassifyEffects initialState.image .throws 0) ∧
    raised (handleClassifyEffects initialState.image .throws 0)
      = [⟨.info, "Please upload an image first."⟩] ∧
    (handleClassify .throws 0 initialState).message
      = some ⟨.info, "Please upload an image first."⟩ ∧
    (handleClassify .throws 0 initialState).result = initialState.result ∧
    (handleClassify .throws 0 initialState).loading = initialState.loading) :=
  ⟨by decide, C6_absent_payload_no_call .throws 0 initialState (by decide)⟩

/-- C7 counterexample: the claim says any non-list shape under
`results.predictions` is stored as an empty result; for a truthy
non-array value the JS fallback `data.results?.predictions || []` keeps
the value itself, so the stored result is that non-list value, not the
empty prediction list. -/
theorem C7_counterexample :
    (handleClassify (.replies true ⟨none, some ⟨some (.other true)⟩⟩) 0 sWithImage).result
      = some (.other true) ∧
    some (PredsVal.other true) ≠ some (PredsVal.arr []) := by decide

/-- C7 (amended): on a success response the stored result is
`data.results?.predictions || []`: a missing or falsy non-array
`predictions` is normalized to the empty list, an array is stored as is,
and a truthy non-array value is stored unchanged — in which case the view
renders the `No data returned.` placeholder rather than zero lines. -/
theorem C7_predictions_normalization (now : ℕ) (s : AppState)
    (d : ResponseData) (v : String) (h : s.image = some v) :
    (handleClassify (.replies true d) now s).result
      = some (jsOrEmptyList (optPredictions d)) ∧
    (optPredictions d = none → jsOrEmptyList (optPredictions d) = .arr []) ∧
    (optPredictions d = some (.other false) →
      jsOrEmptyList (optPredictions d) = .arr []) ∧
    (∀ ps, optPredictions d = some (.arr ps) →
      jsOrEmptyList (optPredictions d) = .arr ps) ∧
    (optPredictions d = some (.other true) →
      jsOrEmptyList (optPredictions d) = .other true ∧
      formatResults (some (.other true)) = .noData) := by
  rw [handleClassify, h]
  refine ⟨?_, ?_, ?_, ?_, ?_⟩
  · simp [handleClassifyEffects, showMessageE, applyEffects, applyEffect]
  · intro he; simp [jsOrEmptyList, he]
  · intro he; simp [jsOrEmptyList, he, predsTruthy]
  · intro ps he; simp [jsOrEmptyList, he, predsTruthy]
  · intro he; exact ⟨by simp [jsOrEmptyList, he, predsTruthy], rfl⟩

/-- C7 witness: concrete success response with no `results` key. -/
theorem C7_witness :
    sWithImage.image = some demoImage ∧
    ((handleClassify (.replies true ⟨none, none⟩) 0 sWithImage).result
      = some (jsOrEmptyList (optPredictions ⟨none, none⟩)) ∧
    (optPredictions ⟨none, none⟩ = none →
      jsOrEmptyList (optPredictions ⟨none, none⟩) = .arr []) ∧
    (optPredictions ⟨none, none⟩ = some (.other false) →
      jsOrEmptyList (optPredictions ⟨none, none⟩) = .arr []) ∧
    (∀ ps, optPredictions ⟨none, none⟩ = some (.arr ps) →
      jsOrEmptyList (optPredictions ⟨none, none⟩) = .arr ps) ∧
    (optPredictions ⟨none, none⟩ = some (.other true) →
      jsOrEmptyList (optPredictions ⟨none, none⟩) = .other true ∧
      formatResults (some (.other true)) = .noData)) :=
  ⟨by decide, C7_predictions_normalization 0 sWithImage ⟨none, none⟩ demoImage (by decide)⟩

/-- C8: for a thrown transport failure the raised notification is an
error reading exactly `Failed to connect to the backend server.`, the
busy flag ends cleared, and the classification result — cleared at the
start of the invocation — is absent. -/
theorem C8_transport_failure (now : ℕ) (s : AppState) (v : String)
    (h : s.image = some v) :
    (handleClassify .throws now s).message
      = some ⟨.error, "Failed to connect to the backend server."⟩ ∧
    (handleClassify .throws now s).result = none ∧
    (handleClassify .throws now s).loading = false := by
  rw [handleClassify, h]
  refine ⟨?_, ?_, ?_⟩ <;>
    simp [handleClassifyEffects, showMessageE, applyEffects, applyEffect]

/-- C8 witness: concrete transport failure with a present payload. -/
theorem C8_witness :
    sWithImage.image = some demoImage ∧
    ((handleClassify .throws 0 sWithImage).message
      = some ⟨.error, "Failed to connect to the backend server."⟩ ∧
    (handleClassify .throws 0 sWithImage).result = none ∧
    (handleClassify .throws 0 sWithImage).loading = false) :=
  ⟨by decide, C8_transport_failure 0 sWithImage demoImage (by decide)⟩

/-- C9: for a present result, `formatResults` yields the literal
`No data returned.` placeholder whenever the value is not an array, and
for an array yields exactly one line per entry, in order, pairing the
label of the entry with its confidence as a percentage with exactly two
decimal digits: confidence 8732/10000 renders as `87.32%` and 1/2 as
`50.00%`. -/
theorem C9_render_results :
    (∀ b, formatResults (some (.other b)) = .noData) ∧
    (∀ ps, formatResults (some (.arr ps)) = .entries (ps.map fmtPrediction)) ∧
    (∀ ps : List Prediction, (ps.map fmtPrediction).length = ps.length) ∧
    (∀ l, fmtPrediction ⟨l, Rat.divInt 8732 10000⟩ = (l, "87.32%")) ∧
    (∀ l, fmtPrediction ⟨l, Rat.divInt 1 2⟩ = (l, "50.00%")) := by
  have h1 : Rat.divInt 8732 10000 * (100 : ℚ) = Rat.divInt 2183 25 := by
    rw [Rat.divInt_eq_div, Rat.divInt_eq_div]; norm_num
  have h2 : Rat.divInt 1 2 * (100 : ℚ) = Rat.divInt 50 1 := by
    rw [Rat.divInt_eq_div, Rat.divInt_eq_div]; norm_num
  refine ⟨fun b => rfl, fun ps => rfl, fun ps => by simp, fun l => ?_, fun l => ?_⟩
  · show (l, toFixed2 (Rat.divInt 8732 10000 * 100) ++ "%") = (l, "87.32%")
    rw [h1]; exact congrArg (Prod.mk l) (by decide)
  · show (l, toFixed2 (Rat.divInt 1 2 * 100) ++ "%") = (l, "50.00%")
    rw [h2]; exact congrArg (Prod.mk l) (by decide)
